import Mathlib

/-
Verification development for the notion timer repository
(src/notion_timer.py, src/notion_tray.py).

Modelling conventions:
- JSON values (the result of json.loads) are the inductive `Json`.
- The state file on disk is `StateFile := Option FileContent`: `none` models a
  missing file; `FileContent.jsonData j` models file text that json.loads parses
  to `j`; `FileContent.malformed` models file text that json.loads rejects
  (empty, truncated, or garbage text).
- Python exceptions that the code raises and that callers may catch (SystemExit
  from `_ensure_env` and `_post_json`, the state-machine SystemExit) are
  modelled by `Except` error values; an exception class the code never catches
  (e.g. TypeError from `datetime.fromisoformat` on a non-string) is the
  `SessionError.crash` case.
- Timestamps: `_iso_now` produces an ISO-8601 string and `_parse_iso` is
  `datetime.fromisoformat`, a left inverse of `isoformat` on the strings this
  program writes.  The model keeps the stored `start` as the value found in the
  file and threads the ambient clock as the string `now`; the denotation of an
  ISO string as rational epoch seconds is passed in as `parseIso : String →
  Option ℚ` (`none` models a parse exception).  Python float arithmetic on
  durations is idealised as exact rational arithmetic.
- Ambient effects are explicit parameters: `env : String → Option String` is
  `os.getenv`, `remote : RemoteOutcome` is what the single network exchange in
  `_post_json` does.
-/

/-- A JSON value, the result of Python `json.loads`.  An `obj` is a parsed dict,
so its keys are unique by construction; lookup takes the first match. -/
inductive Json where
  | str (s : String)
  | num (q : ℚ)
  | jsonBool (b : Bool)
  | null
  | arr (elems : List Json)
  | obj (fields : List (String × Json))

/-- First-match lookup of a key in a parsed JSON object, modelling Python dict
indexing `data[key]` (where a missing key raises KeyError, here `none`). -/
def lookupKey : List (String × Json) → String → Option Json
  | [], _ => none
  | (k, v) :: rest, key => if k = key then some v else lookupKey rest key

/-- The `SessionState` dataclass of notion_timer.py (lines 15-26).  The Python
field annotations say `str`, but dataclasses do not enforce annotations and
`from_dict` stores whatever JSON values the file held, so the fields are
`Json` here; every session the program itself creates has `Json.str` fields. -/
structure SessionState where
  project : Json
  task : Json
  start : Json

/-- `SessionState.to_dict` (notion_timer.py lines 25-26). -/
def SessionState.to_dict (s : SessionState) : Json :=
  Json.obj [("project", s.project), ("task", s.task), ("start", s.start)]

/-- `SessionState.from_dict` (notion_timer.py lines 21-23) as its callers see it
under `_read_state`'s catch-all: `data["project"]` etc. raise KeyError when the
key is missing and TypeError when `data` is not a dict; both are modelled by
`none`. -/
def SessionState.from_dict (j : Json) : Option SessionState :=
  match j with
  | Json.obj kvs =>
    match lookupKey kvs "project", lookupKey kvs "task", lookupKey kvs "start" with
    | some p, some t, some st => some ⟨p, t, st⟩
    | _, _, _ => none
  | _ => none

/-- Content of the state file: text that parses as JSON, or text that
json.loads rejects (empty, truncated or garbage). -/
inductive FileContent where
  | jsonData (j : Json)
  | malformed

/-- The state file on disk: `none` when `.notion_timer_state.json` is missing. -/
abbrev StateFile := Option FileContent

/-- `_read_state` (notion_timer.py lines 29-36): missing file gives None; any
exception from json.loads or from_dict is caught and gives None. -/
def read_state (f : StateFile) : Option SessionState :=
  match f with
  | none => none
  | some FileContent.malformed => none
  | some (FileContent.jsonData j) => SessionState.from_dict j

/-- `_write_state` (notion_timer.py lines 39-40): the file afterwards holds the
serialized session, whatever it held before. -/
def write_state (s : SessionState) (_prev : StateFile) : StateFile :=
  some (FileContent.jsonData s.to_dict)

/-- The file contents observable by a concurrent reader while `_write_state`
runs.  `Path.write_text` is `open(mode="w")` followed by one write: opening
with mode "w" truncates the file, so between the open and the completed write
the file exists but holds empty or partial text, which json.loads rejects
(`FileContent.malformed`); after the write it holds the full serialized
session. -/
def write_text_steps (s : SessionState) : List StateFile :=
  [some FileContent.malformed, some (FileContent.jsonData s.to_dict)]

/-- `_clear_state` (notion_timer.py lines 43-45): unlink if present, no-op if
absent; either way the file is gone. -/
def clear_state (_f : StateFile) : StateFile := none

/-- `_ensure_env` fallback to the environment (notion_timer.py lines 59-62):
`os.getenv` gives None or a string; Python `if not env_val` treats None and ""
as missing and raises SystemExit naming the variable. -/
def ensure_env_fallback (env : String → Option String) (name : String) :
    Except String String :=
  match env name with
  | some e => if e = "" then Except.error name else Except.ok e
  | none => Except.error name

/-- `_ensure_env` (notion_timer.py lines 56-62): `if value:` is Python
truthiness, so a None flag and an empty-string flag both fall through to the
environment.  The error carries the credential name from the SystemExit
message. -/
def ensure_env (value : Option String) (env : String → Option String)
    (name : String) : Except String String :=
  match value with
  | some v => if v = "" then ensure_env_fallback env name else Except.ok v
  | none => ensure_env_fallback env name

/-- What the single network exchange in `_post_json` does: `urlopen` returns a
response (status, body text), or raises HTTPError (carrying the error response),
or raises URLError (transport failure: timeout, connection error). -/
inductive RemoteOutcome where
  | response (status : Nat) (text : String)
  | httpError (code : Nat) (body : String)
  | urlError (cause : String)

/-- The two failure classifications `_post_json` reports via SystemExit:
the remote rejected the request (status and body kept for diagnostics), or the
transport failed (the underlying cause kept). -/
inductive PostError where
  | remoteError (status : Nat) (body : String)
  | networkError (cause : String)

/-- `_post_json` (notion_timer.py lines 65-81): a URLError is reported as a
network error at once; otherwise the status and text come from the response or
from the HTTPError, and status >= 400 is reported as a remote error carrying
status and body.  The url, headers and payload shape the request but play no
role in the classification. -/
def post_json (_url : String) (_headers : List (String × String)) (_payload : Json)
    (outcome : RemoteOutcome) : Except PostError Unit :=
  match outcome with
  | RemoteOutcome.urlError c => Except.error (PostError.networkError c)
  | RemoteOutcome.response s t =>
    if 400 ≤ s then Except.error (PostError.remoteError s t) else Except.ok ()
  | RemoteOutcome.httpError s t =>
    if 400 ≤ s then Except.error (PostError.remoteError s t) else Except.ok ()

/-- `NOTION_VERSION` (notion_timer.py line 12). -/
def notion_version : String := "2022-06-28"

/-- Round half to even, the tie-breaking rule of Python `round`. -/
def roundHalfEven (q : ℚ) : ℤ :=
  let f : ℤ := Int.floor q
  let r : ℚ := q - f
  if r < 1 / 2 then f
  else if 1 / 2 < r then f + 1
  else if f % 2 = 0 then f else f + 1

/-- Python `round(x, 2)` idealised over the rationals. -/
def round2 (q : ℚ) : ℚ := (roundHalfEven (q * 100) : ℚ) / 100

/-- `create_notion_page` (notion_timer.py lines 84-109): builds the headers and
the page payload and posts them.  `project`, `task` and `start_iso` arrive from
the stored session, so they are the stored JSON values; `end_iso` always comes
from `_iso_now`. -/
def create_notion_page (token database_id : String) (project task start_j : Json)
    (end_iso : String) (duration_minutes : ℚ) (outcome : RemoteOutcome) :
    Except PostError Unit :=
  post_json "https://api.notion.com/v1/pages"
    [("Authorization", "Bearer " ++ token),
     ("Notion-Version", notion_version),
     ("Content-Type", "application/json")]
    (Json.obj
      [("parent", Json.obj [("database_id", Json.str database_id)]),
       ("properties", Json.obj
         [("Task", Json.obj [("title", Json.arr
             [Json.obj [("text", Json.obj [("content", task)])]])]),
          ("Project", Json.obj [("select", Json.obj [("name", project)])]),
          ("Start", Json.obj [("date", Json.obj [("start", start_j)])]),
          ("End", Json.obj [("date", Json.obj [("start", Json.str end_iso)])]),
          ("Duration (minutes)", Json.num (round2 duration_minutes))])])
    outcome

/-- The errors a controller operation reports.  `alreadyRunning`,
`noActiveSession` and `configError` are the SystemExit messages of
start_session, stop_session and `_ensure_env`; `postFailed` wraps the SystemExit
from `_post_json`; `crash` is an exception class nothing in the program catches
(TypeError or ValueError from `datetime.fromisoformat`). -/
inductive SessionError where
  | alreadyRunning
  | noActiveSession
  | configError (name : String)
  | postFailed (e : PostError)
  | crash (what : String)

/-- `start_session` (notion_timer.py lines 112-119): refuse when a session is
already stored, otherwise write a fresh session with the current timestamp.
No validation of `project` or `task` happens here. -/
def start_session (project task : String) (now : String) (file : StateFile) :
    Except SessionError Unit × StateFile :=
  match read_state file with
  | some _ => (Except.error SessionError.alreadyRunning, file)
  | none =>
    (Except.ok (), write_state ⟨Json.str project, Json.str task, Json.str now⟩ file)

/-- `_parse_iso(state.start)`: `datetime.fromisoformat` raises TypeError on a
non-string argument; on a string, `parseIso` gives its denotation in rational
epoch seconds, `none` when parsing raises ValueError. -/
def parse_start (parseIso : String → Option ℚ) (j : Json) : Option ℚ :=
  match j with
  | Json.str s => parseIso s
  | _ => none

/-- The record `stop_session` hands to `create_notion_page` when it reaches the
network call: the stored fields, the end timestamp, and the duration in
minutes as computed at notion_timer.py line 133 (before the 2-decimal wire
rounding inside the payload). -/
structure SentRecord where
  project : Json
  task : Json
  start : Json
  end_iso : String
  duration_minutes : ℚ

/-- Result of one `stop` operation: the reported outcome, the state file
afterwards, and the record given to `create_notion_page` (`none` exactly when
the network call was never made). -/
structure StopOutcome where
  result : Except SessionError Unit
  file : StateFile
  sent : Option SentRecord

/-- `stop_session` (notion_timer.py lines 122-149): read the stored session
(refusing when absent), resolve both credentials (SystemExit before any further
effect when one is missing), take the end timestamp, parse both timestamps,
compute `duration_minutes = (end_dt - start_dt).total_seconds() / 60`, post the
page, and clear the state file only after the post returned successfully. -/
def stop_session (parseIso : String → Option ℚ) (token database_id : Option String)
    (env : String → Option String) (now : String) (remote : RemoteOutcome)
    (file : StateFile) : StopOutcome :=
  match read_state file with
  | none => ⟨Except.error SessionError.noActiveSession, file, none⟩
  | some state =>
    match ensure_env token env "NOTION_TOKEN" with
    | Except.error n => ⟨Except.error (SessionError.configError n), file, none⟩
    | Except.ok tok =>
      match ensure_env database_id env "NOTION_DATABASE_ID" with
      | Except.error n => ⟨Except.error (SessionError.configError n), file, none⟩
      | Except.ok db =>
        match parse_start parseIso state.start with
        | none => ⟨Except.error (SessionError.crash "fromisoformat"), file, none⟩
        | some start_dt =>
          match parseIso now with
          | none => ⟨Except.error (SessionError.crash "fromisoformat"), file, none⟩
          | some end_dt =>
            let duration_minutes : ℚ := (end_dt - start_dt) / 60
            let rec_sent : SentRecord :=
              ⟨state.project, state.task, state.start, now, duration_minutes⟩
            match create_notion_page tok db state.project state.task state.start
                now duration_minutes remote with
            | Except.error e =>
              ⟨Except.error (SessionError.postFailed e), file, some rec_sent⟩
            | Except.ok _ => ⟨Except.ok (), clear_state file, some rec_sent⟩

/-- Drop leading whitespace characters from a character list. -/
def dropLeadingWs : List Char → List Char
  | [] => []
  | c :: cs => if c.isWhitespace then dropLeadingWs cs else c :: cs

/-- Python `str.strip()`: remove leading and trailing whitespace. -/
def pyStrip (s : String) : String :=
  String.mk ((dropLeadingWs (dropLeadingWs s.data).reverse).reverse)

/-- The outcomes of the GUI start button. -/
inductive GuiStartError where
  | missingInfo
  | alreadyRunning

/-- `TimerApp.start_timer` (notion_tray.py lines 78-92): strip both entry
fields, refuse (before touching the file) when either is blank, refuse when a
session is already stored, otherwise write a fresh session from the stripped
fields. -/
def start_timer (project_var task_var : String) (now : String) (file : StateFile) :
    Except GuiStartError Unit × StateFile :=
  let project := pyStrip project_var
  let task := pyStrip task_var
  if project = "" ∨ task = "" then (Except.error GuiStartError.missingInfo, file)
  else
    match read_state file with
    | some _ => (Except.error GuiStartError.alreadyRunning, file)
    | none =>
      (Except.ok (), write_state ⟨Json.str project, Json.str task, Json.str now⟩ file)

/-- `TimerApp.stop_timer` (notion_tray.py lines 94-131): the same reads, checks,
arithmetic and network call as `stop_session`, with the credentials taken from
the environment only (both `_ensure_env` calls get None).  The GUI differs only
in how outcomes are rendered: config SystemExit becomes an error dialog,
fromisoformat errors are caught by `except Exception` and become an error
dialog, and a SystemExit from `_post_json` (not an `Exception` subclass)
escapes the handler; in every failure case `_clear_state` is not reached and
the file is left as it was, exactly as in `stop_session`. -/
def stop_timer (parseIso : String → Option ℚ) (env : String → Option String)
    (now : String) (remote : RemoteOutcome) (file : StateFile) : StopOutcome :=
  stop_session parseIso none none env now remote file

/-- `status_session` (notion_timer.py lines 152-157) and
`TimerApp.refresh_status`: a plain non-mutating read. -/
def status_session (file : StateFile) : Option SessionState :=
  read_state file

/-- Spec-side predicate (section 4.3 of the spec): the remote call reports
success exactly when a response arrived with status below 400. -/
def remote_success (outcome : RemoteOutcome) : Prop :=
  match outcome with
  | RemoteOutcome.response s _ => s < 400
  | RemoteOutcome.httpError s _ => s < 400
  | RemoteOutcome.urlError _ => False

instance (outcome : RemoteOutcome) : Decidable (remote_success outcome) := by
  cases outcome <;> simp only [remote_success] <;> infer_instance

/-- Spec-side predicate (section 4.1 of the spec): an atomic replace never lets
a reader observe a file state other than the previous content or the final
content. -/
def atomic_replace (prev : StateFile) (s : SessionState) : Prop :=
  ∀ mid ∈ write_text_steps s, mid = prev ∨ mid = some (FileContent.jsonData s.to_dict)

/- Concrete values used by witnesses and counterexamples -/

/-- A concrete start instant in the ISO form `_iso_now` emits. -/
def t0iso : String := "2024-01-01T09:00:00+00:00"

/-- A concrete end instant, 90 seconds after `t0iso`. -/
def t1iso : String := "2024-01-01T09:01:30+00:00"

/-- A concrete ISO denotation covering the two demo instants: epoch seconds 0
and 90. -/
def demo_parse (s : String) : Option ℚ :=
  if s = t0iso then some 0 else if s = t1iso then some 90 else none

/-- A concrete environment holding both credentials. -/
def demo_env (n : String) : Option String :=
  if n = "NOTION_TOKEN" then some "secret"
  else if n = "NOTION_DATABASE_ID" then some "dbid" else none

/-- A concrete environment holding no credential. -/
def empty_env (_n : String) : Option String := none

/-- The session of spec scenario 1: `start("Acme", "Design")` at `t0iso`. -/
def demo_session : SessionState :=
  ⟨Json.str "Acme", Json.str "Design", Json.str t0iso⟩

/-- The state file after scenario 1. -/
def demo_file : StateFile := some (FileContent.jsonData demo_session.to_dict)

/- Shared helper lemmas -/

/-- Serialization round trip at the JSON level: `from_dict` recovers exactly the
fields `to_dict` wrote. -/
theorem from_dict_to_dict (s : SessionState) :
    SessionState.from_dict s.to_dict = some s := rfl

/-- `post_json` reports success exactly on the outcomes `remote_success`
describes; the request data does not influence the classification. -/
theorem post_json_ok_iff (u : String) (hs : List (String × String)) (p : Json)
    (o : RemoteOutcome) :
    post_json u hs p o = Except.ok () ↔ remote_success o := by
  cases o with
  | urlError c => simp [post_json, remote_success]
  | response s t =>
    simp only [post_json, remote_success]
    split
    next h400 => simp; omega
    next h400 => simp; omega
  | httpError s t =>
    simp only [post_json, remote_success]
    split
    next h400 => simp; omega
    next h400 => simp; omega

/-- A file from which a session was read is present. -/
theorem read_state_some_ne_none (f : StateFile) (s : SessionState)
    (h : read_state f = some s) : f ≠ none := by
  intro hf
  rw [hf] at h
  simp [read_state] at h

/-- Behaviour of `stop_session` once the stored session has been read and both
credentials resolved: everything up to the network call is determined, and the
remainder is decided by the outcome of `create_notion_page`. -/
theorem stop_session_running_eq (parseIso : String → Option ℚ)
    (token database_id : Option String) (env : String → Option String)
    (now : String) (remote : RemoteOutcome) (file : StateFile)
    (state : SessionState) (tok db : String) (t1 t2 : ℚ)
    (hread : read_state file = some state)
    (htok : ensure_env token env "NOTION_TOKEN" = Except.ok tok)
    (hdb : ensure_env database_id env "NOTION_DATABASE_ID" = Except.ok db)
    (hstart : parse_start parseIso state.start = some t1)
    (hend : parseIso now = some t2) :
    stop_session parseIso token database_id env now remote file =
      match create_notion_page tok db state.project state.task state.start now
          ((t2 - t1) / 60) remote with
      | Except.error e =>
        ⟨Except.error (SessionError.postFailed e), file,
          some ⟨state.project, state.task, state.start, now, (t2 - t1) / 60⟩⟩
      | Except.ok _ =>
        ⟨Except.ok (), none,
          some ⟨state.project, state.task, state.start, now, (t2 - t1) / 60⟩⟩ := by
  simp only [stop_session, hread, htok, hdb, hstart, hend, clear_state]

/-- A successful environment fallback never yields the empty string. -/
theorem ensure_env_fallback_ok_ne (env : String → Option String) (name r : String)
    (h : ensure_env_fallback env name = Except.ok r) : r ≠ "" := by
  intro hr
  subst hr
  cases henv : env name with
  | none => simp [ensure_env_fallback, henv] at h
  | some e =>
    by_cases he : e = ""
    · simp [ensure_env_fallback, henv, he] at h
    · simp [ensure_env_fallback, henv, he] at h

/- Claim theorems -/

/-- C9: for every session `s` (and whatever the file held before), `write(s)`
followed by `read()` yields a session equal to `s`. -/
theorem write_read_roundtrip (s : SessionState) (prev : StateFile) :
    read_state (write_state s prev) = some s :=
  from_dict_to_dict s

/-- C4: `read()` is total (it returns an `Option`, never raising): a missing
file, a file whose text json.loads rejects (empty or corrupted), a parsed
record lacking a required key, and a parsed non-record all give absent, exactly
as a missing session does; a parsed record carrying the three keys gives the
session with those stored fields. -/
theorem read_state_never_raises_classification :
    read_state none = none ∧
    read_state (some FileContent.malformed) = none ∧
    (∀ p t st, read_state (some (FileContent.jsonData
        (Json.obj [("project", p), ("task", t), ("start", st)]))) = some ⟨p, t, st⟩) ∧
    (∀ p t, read_state (some (FileContent.jsonData
        (Json.obj [("project", p), ("task", t)]))) = none) ∧
    (∀ s, read_state (some (FileContent.jsonData (Json.str s))) = none) ∧
    (∀ j, SessionState.from_dict j = none →
      read_state (some (FileContent.jsonData j)) = none) := by
  refine ⟨rfl, rfl, fun p t st => rfl, fun p t => rfl, fun s => rfl, fun j h => h⟩

/-- Witness for C4 at concrete inputs: the scenario-1 record reads back, and a
record missing the `start` key reads as absent. -/
theorem read_state_never_raises_classification_witness :
    read_state (some (FileContent.jsonData (Json.obj
      [("project", Json.str "Acme"), ("task", Json.str "Design"),
       ("start", Json.str t0iso)]))) = some demo_session ∧
    read_state (some (FileContent.jsonData (Json.obj
      [("project", Json.str "Acme"), ("task", Json.str "Design")]))) = none ∧
    read_state (some (FileContent.jsonData Json.null)) = none :=
  ⟨read_state_never_raises_classification.2.2.1 (Json.str "Acme") (Json.str "Design")
      (Json.str t0iso),
   read_state_never_raises_classification.2.2.2.1 (Json.str "Acme") (Json.str "Design"),
   read_state_never_raises_classification.2.2.2.2.2 Json.null rfl⟩

/-- C10: `_ensure_env` prefers a non-empty flag value; a None flag and an
empty-string flag both fall through to the environment, whose value is used
only when non-empty; when neither source is a non-empty string the
missing-credential error naming the variable is produced; a successful
resolution is never the empty string. -/
theorem ensure_env_resolution :
    (∀ (v : String) (env : String → Option String) (name : String),
       v ≠ "" → ensure_env (some v) env name = Except.ok v) ∧
    (∀ (env : String → Option String) (name e : String),
       env name = some e → e ≠ "" →
       ensure_env none env name = Except.ok e ∧
       ensure_env (some "") env name = Except.ok e) ∧
    (∀ (env : String → Option String) (name : String),
       env name = none ∨ env name = some "" →
       ensure_env none env name = Except.error name ∧
       ensure_env (some "") env name = Except.error name) ∧
    (∀ (v : Option String) (env : String → Option String) (name r : String),
       ensure_env v env name = Except.ok r → r ≠ "") := by
  refine ⟨?_, ?_, ?_, ?_⟩
  · intro v env name hv
    simp [ensure_env, hv]
  · intro env name e he hne
    constructor <;> simp [ensure_env, ensure_env_fallback, he, hne]
  · intro env name h
    rcases h with h | h <;>
      constructor <;> simp [ensure_env, ensure_env_fallback, h]
  · intro v env name r h
    cases v with
    | none => exact ensure_env_fallback_ok_ne env name r h
    | some v =>
      by_cases hv : v = ""
      · simp only [ensure_env] at h
        rw [if_pos hv] at h
        exact ensure_env_fallback_ok_ne env name r h
      · simp only [ensure_env] at h
        rw [if_neg hv] at h
        cases h
        exact hv

/-- Witness for C10 at concrete inputs: a non-empty flag wins over the
environment; an empty flag falls back to the environment value; with an empty
flag and an empty environment value the error names the variable. -/
theorem ensure_env_resolution_witness :
    ensure_env (some "cli-token") demo_env "NOTION_TOKEN" = Except.ok "cli-token" ∧
    ensure_env (some "") demo_env "NOTION_TOKEN" = Except.ok "secret" ∧
    ensure_env (some "") empty_env "NOTION_TOKEN" = Except.error "NOTION_TOKEN" :=
  ⟨ensure_env_resolution.1 "cli-token" demo_env "NOTION_TOKEN" (by decide),
   (ensure_env_resolution.2.1 demo_env "NOTION_TOKEN" "secret" rfl (by decide)).2,
   (ensure_env_resolution.2.2.1 empty_env "NOTION_TOKEN" (Or.inl rfl)).2⟩

/-- C3: for every request, `_post_json` reports success exactly when the
response status is below 400; a status of 400 or more is reported as the typed
remote-error outcome carrying that status and the response body (whether the
status arrived as a plain response or as an HTTPError); a transport failure is
reported as the typed network-error outcome carrying the underlying cause.
Both failures are `Except` error values, the model of a catchable exception
handed back to the caller. -/
theorem post_json_classification (u : String) (hs : List (String × String))
    (p : Json) :
    (∀ s t, s < 400 → post_json u hs p (RemoteOutcome.response s t) = Except.ok ()) ∧
    (∀ s t, 400 ≤ s → post_json u hs p (RemoteOutcome.response s t) =
        Except.error (PostError.remoteError s t)) ∧
    (∀ s t, s < 400 → post_json u hs p (RemoteOutcome.httpError s t) = Except.ok ()) ∧
    (∀ s t, 400 ≤ s → post_json u hs p (RemoteOutcome.httpError s t) =
        Except.error (PostError.remoteError s t)) ∧
    (∀ c, post_json u hs p (RemoteOutcome.urlError c) =
        Except.error (PostError.networkError c)) ∧
    (∀ o, post_json u hs p o = Except.ok () ↔ remote_success o) := by
  refine ⟨?_, ?_, ?_, ?_, fun c => rfl, post_json_ok_iff u hs p⟩
  · intro s t hlt
    simp [post_json, Nat.not_le.mpr hlt]
  · intro s t hge
    simp [post_json, hge]
  · intro s t hlt
    simp [post_json, Nat.not_le.mpr hlt]
  · intro s t hge
    simp [post_json, hge]

/-- Witness for C3 at concrete inputs: status 200 succeeds, status 500 carries
status and body, a timeout carries its cause. -/
theorem post_json_classification_witness :
    post_json "https://api.notion.com/v1/pages" [] Json.null
      (RemoteOutcome.response 200 "ok") = Except.ok () ∧
    post_json "https://api.notion.com/v1/pages" [] Json.null
      (RemoteOutcome.response 500 "boom") =
      Except.error (PostError.remoteError 500 "boom") ∧
    post_json "https://api.notion.com/v1/pages" [] Json.null
      (RemoteOutcome.urlError "timed out") =
      Except.error (PostError.networkError "timed out") :=
  ⟨(post_json_classification "https://api.notion.com/v1/pages" [] Json.null).1
      200 "ok" (by decide),
   (post_json_classification "https://api.notion.com/v1/pages" [] Json.null).2.1
      500 "boom" (by decide),
   (post_json_classification "https://api.notion.com/v1/pages" [] Json.null).2.2.2.2.1
      "timed out"⟩

/-- C7: whenever a session can be read from the file, `start_session` fails
with the already-running error and returns the file exactly as it was; whenever
no session can be read, `stop_session` fails with the no-active-session error,
the file is exactly as it was, and no network call is made. -/
theorem state_machine_preconditions :
    (∀ (p t now : String) (file : StateFile) (s : SessionState),
       read_state file = some s →
       start_session p t now file = (Except.error SessionError.alreadyRunning, file)) ∧
    (∀ (parseIso : String → Option ℚ) (token database_id : Option String)
       (env : String → Option String) (now : String) (remote : RemoteOutcome)
       (file : StateFile),
       read_state file = none →
       stop_session parseIso token database_id env now remote file =
         ⟨Except.error SessionError.noActiveSession, file, none⟩) := by
  constructor
  · intro p t now file s h
    simp [start_session, h]
  · intro parseIso token database_id env now remote file h
    simp [stop_session, h]

/-- Witness for C7 at concrete inputs: starting over the stored scenario-1
session fails and preserves it; stopping over a missing file fails. -/
theorem state_machine_preconditions_witness :
    start_session "Other" "Thing" t1iso demo_file =
      (Except.error SessionError.alreadyRunning, demo_file) ∧
    stop_session demo_parse none none demo_env t1iso
        (RemoteOutcome.response 200 "ok") none =
      ⟨Except.error SessionError.noActiveSession, none, none⟩ :=
  ⟨state_machine_preconditions.1 "Other" "Thing" t1iso demo_file demo_session rfl,
   state_machine_preconditions.2 demo_parse none none demo_env t1iso
      (RemoteOutcome.response 200 "ok") none rfl⟩

/-- C1: with a stored session readable, both credentials resolved and both
timestamps parsing, `stop` clears the state file if and only if the remote call
reports success (status below 400); on success it reports success, and on any
remote failure it reports the wrapped failure and leaves the state file exactly
(byte for byte) as it was, so a later `stop` retry starts from the same stored
session.  The GUI `stop_timer` is the `token = database_id = none` instance of
this statement. -/
theorem stop_clears_state_iff_remote_success (parseIso : String → Option ℚ)
    (token database_id : Option String) (env : String → Option String)
    (now : String) (remote : RemoteOutcome) (file : StateFile)
    (state : SessionState) (tok db : String) (t1 t2 : ℚ)
    (hread : read_state file = some state)
    (htok : ensure_env token env "NOTION_TOKEN" = Except.ok tok)
    (hdb : ensure_env database_id env "NOTION_DATABASE_ID" = Except.ok db)
    (hstart : parse_start parseIso state.start = some t1)
    (hend : parseIso now = some t2) :
    ((stop_session parseIso token database_id env now remote file).file = none ↔
       remote_success remote) ∧
    ((stop_session parseIso token database_id env now remote file).result =
       Except.ok () ↔ remote_success remote) ∧
    (¬ remote_success remote →
       (stop_session parseIso token database_id env now remote file).file = file ∧
       ∃ e, (stop_session parseIso token database_id env now remote file).result =
         Except.error (SessionError.postFailed e)) := by
  have hne : file ≠ none := read_state_some_ne_none file state hread
  rw [stop_session_running_eq parseIso token database_id env now remote file
    state tok db t1 t2 hread htok hdb hstart hend]
  cases hcp : create_notion_page tok db state.project state.task state.start now
      ((t2 - t1) / 60) remote with
  | ok u =>
    cases u
    have hr : remote_success remote := (post_json_ok_iff _ _ _ remote).mp hcp
    exact ⟨by simpa using hr, by simpa using hr, fun hn => absurd hr hn⟩
  | error e =>
    have hr : ¬ remote_success remote := by
      intro hs
      have hok : create_notion_page tok db state.project state.task state.start now
          ((t2 - t1) / 60) remote = Except.ok () :=
        (post_json_ok_iff _ _ _ remote).mpr hs
      rw [hok] at hcp
      exact Except.noConfusion hcp
    exact ⟨by simpa [hne] using hr, by simpa using hr, fun _ => ⟨rfl, e, rfl⟩⟩

/-- Witness for C1 at concrete inputs: on a 200 response the scenario-1 file is
cleared; the failure clause is exercised with the hypotheses of the theorem
discharged on the same concrete state. -/
theorem stop_clears_state_iff_remote_success_witness :
    (((stop_session demo_parse none none demo_env t1iso
        (RemoteOutcome.response 200 "ok") demo_file).file = none ↔
        remote_success (RemoteOutcome.response 200 "ok")) ∧
     ((stop_session demo_parse none none demo_env t1iso
        (RemoteOutcome.response 200 "ok") demo_file).result = Except.ok () ↔
        remote_success (RemoteOutcome.response 200 "ok")) ∧
     (¬ remote_success (RemoteOutcome.response 200 "ok") →
        (stop_session demo_parse none none demo_env t1iso
          (RemoteOutcome.response 200 "ok") demo_file).file = demo_file ∧
        ∃ e, (stop_session demo_parse none none demo_env t1iso
          (RemoteOutcome.response 200 "ok") demo_file).result =
            Except.error (SessionError.postFailed e))) ∧
    (((stop_session demo_parse none none demo_env t1iso
        (RemoteOutcome.response 500 "boom") demo_file).file = none ↔
        remote_success (RemoteOutcome.response 500 "boom")) ∧
     ((stop_session demo_parse none none demo_env t1iso
        (RemoteOutcome.response 500 "boom") demo_file).result = Except.ok () ↔
        remote_success (RemoteOutcome.response 500 "boom")) ∧
     (¬ remote_success (RemoteOutcome.response 500 "boom") →
        (stop_session demo_parse none none demo_env t1iso
          (RemoteOutcome.response 500 "boom") demo_file).file = demo_file ∧
        ∃ e, (stop_session demo_parse none none demo_env t1iso
          (RemoteOutcome.response 500 "boom") demo_file).result =
            Except.error (SessionError.postFailed e))) :=
  ⟨stop_clears_state_iff_remote_success demo_parse none none demo_env t1iso
      (RemoteOutcome.response 200 "ok") demo_file demo_session "secret" "dbid"
      0 90 rfl rfl rfl rfl rfl,
   stop_clears_state_iff_remote_success demo_parse none none demo_env t1iso
      (RemoteOutcome.response 500 "boom") demo_file demo_session "secret" "dbid"
      0 90 rfl rfl rfl rfl rfl⟩

/-- C8: under the same reachability hypotheses, when the stored start instant
is at or before the end instant, the record handed to `create_notion_page`
carries `duration_minutes` equal to the elapsed seconds divided by 60 exactly,
and that value is nonnegative (Python float arithmetic idealised as exact
rational arithmetic). -/
theorem stop_duration_formula (parseIso : String → Option ℚ)
    (token database_id : Option String) (env : String → Option String)
    (now : String) (remote : RemoteOutcome) (file : StateFile)
    (state : SessionState) (tok db : String) (t1 t2 : ℚ)
    (hread : read_state file = some state)
    (htok : ensure_env token env "NOTION_TOKEN" = Except.ok tok)
    (hdb : ensure_env database_id env "NOTION_DATABASE_ID" = Except.ok db)
    (hstart : parse_start parseIso state.start = some t1)
    (hend : parseIso now = some t2)
    (hle : t1 ≤ t2) :
    ∃ r, (stop_session parseIso token database_id env now remote file).sent =
        some r ∧
      r.duration_minutes = (t2 - t1) / 60 ∧ 0 ≤ r.duration_minutes := by
  rw [stop_session_running_eq parseIso token database_id env now remote file
    state tok db t1 t2 hread htok hdb hstart hend]
  have hnonneg : 0 ≤ (t2 - t1) / 60 :=
    div_nonneg (sub_nonneg.mpr hle) (by norm_num)
  cases hcp : create_notion_page tok db state.project state.task state.start now
      ((t2 - t1) / 60) remote with
  | ok u => exact ⟨_, rfl, rfl, hnonneg⟩
  | error e => exact ⟨_, rfl, rfl, hnonneg⟩

/-- Witness for C8 at concrete inputs: scenario 2 of the spec, 90 elapsed
seconds giving exactly 3/2 minutes. -/
theorem stop_duration_formula_witness :
    ∃ r, (stop_session demo_parse none none demo_env t1iso
        (RemoteOutcome.response 200 "ok") demo_file).sent = some r ∧
      r.duration_minutes = ((90 : ℚ) - 0) / 60 ∧ 0 ≤ r.duration_minutes :=
  stop_duration_formula demo_parse none none demo_env t1iso
    (RemoteOutcome.response 200 "ok") demo_file demo_session "secret" "dbid"
    0 90 rfl rfl rfl rfl rfl (by norm_num)

/-- C6: when a session is stored but a credential cannot be resolved, `stop`
reports the config error naming that credential, leaves the state file exactly
as it was and never reaches the network; and whatever the stored state, a
missing credential means the state file is unchanged and no network call is
made. -/
theorem stop_config_error_no_effects (parseIso : String → Option ℚ)
    (token database_id : Option String) (env : String → Option String)
    (now : String) (remote : RemoteOutcome) (file : StateFile) :
    (∀ (state : SessionState) (n : String),
       read_state file = some state →
       ensure_env token env "NOTION_TOKEN" = Except.error n →
       stop_session parseIso token database_id env now remote file =
         ⟨Except.error (SessionError.configError n), file, none⟩) ∧
    (∀ (state : SessionState) (tok n : String),
       read_state file = some state →
       ensure_env token env "NOTION_TOKEN" = Except.ok tok →
       ensure_env database_id env "NOTION_DATABASE_ID" = Except.error n →
       stop_session parseIso token database_id env now remote file =
         ⟨Except.error (SessionError.configError n), file, none⟩) ∧
    ((∃ n, ensure_env token env "NOTION_TOKEN" = Except.error n) ∨
     (∃ n, ensure_env database_id env "NOTION_DATABASE_ID" = Except.error n) →
       (stop_session parseIso token database_id env now remote file).file = file ∧
       (stop_session parseIso token database_id env now remote file).sent = none) := by
  refine ⟨?_, ?_, ?_⟩
  · intro state n hread htok
    simp [stop_session, hread, htok]
  · intro state tok n hread htok hdb
    simp [stop_session, hread, htok, hdb]
  · intro hmiss
    cases hread : read_state file with
    | none => simp [stop_session, hread]
    | some state =>
      cases htok : ensure_env token env "NOTION_TOKEN" with
      | error n => simp [stop_session, hread, htok]
      | ok tok =>
        cases hdb : ensure_env database_id env "NOTION_DATABASE_ID" with
        | error n => simp [stop_session, hread, htok, hdb]
        | ok db =>
          rcases hmiss with ⟨n, hn⟩ | ⟨n, hn⟩
          · rw [htok] at hn
            exact Except.noConfusion hn
          · rw [hdb] at hn
            exact Except.noConfusion hn

/-- Witness for C6 at concrete inputs: with the scenario-1 session stored and an
empty environment, `stop` reports the missing token, keeps the file, and makes
no network call. -/
theorem stop_config_error_no_effects_witness :
    stop_session demo_parse none none empty_env t1iso
        (RemoteOutcome.response 200 "ok") demo_file =
      ⟨Except.error (SessionError.configError "NOTION_TOKEN"), demo_file, none⟩ :=
  (stop_config_error_no_effects demo_parse none none empty_env t1iso
      (RemoteOutcome.response 200 "ok") demo_file).1 demo_session
    "NOTION_TOKEN" rfl rfl

/-- C2 counterexample: the CLI `start_session` called in Idle with an empty
project (the spec's `start("", "Design")`) is not rejected: it reports success
and a session with the empty project is created and stored. -/
theorem start_session_accepts_blank_project :
    (start_session "" "Design" t0iso none).1 = Except.ok () ∧
    read_state (start_session "" "Design" t0iso none).2 =
      some ⟨Json.str "", Json.str "Design", Json.str t0iso⟩ :=
  ⟨rfl, rfl⟩

/-- C2 amended: only the GUI front end enforces the non-empty precondition —
`start_timer` rejects a start whose project or task is blank after stripping
whitespace, before any write, leaving the file as it was; the CLI
`start_session` performs no such validation and, in Idle, stores a session with
whatever project and task strings it was given, empty or not. -/
theorem start_validation_gui_only :
    (∀ (p t now : String) (file : StateFile),
       pyStrip p = "" ∨ pyStrip t = "" →
       start_timer p t now file = (Except.error GuiStartError.missingInfo, file)) ∧
    (∀ p t now : String,
       (start_session p t now none).1 = Except.ok () ∧
       read_state (start_session p t now none).2 =
         some ⟨Json.str p, Json.str t, Json.str now⟩) := by
  constructor
  · intro p t now file h
    simp only [start_timer]
    rw [if_pos h]
  · intro p t now
    exact ⟨rfl, rfl⟩

/-- Witness for the amended C2 at concrete inputs: a whitespace-only project is
rejected by the GUI with no write, while the CLI stores the empty-project
session. -/
theorem start_validation_gui_only_witness :
    start_timer " " "Design" t0iso none =
      (Except.error GuiStartError.missingInfo, none) ∧
    ((start_session "" "Design2" t0iso none).1 = Except.ok () ∧
     read_state (start_session "" "Design2" t0iso none).2 =
       some ⟨Json.str "", Json.str "Design2", Json.str t0iso⟩) :=
  ⟨start_validation_gui_only.1 " " "Design" t0iso none (Or.inl (by decide)),
   start_validation_gui_only.2 "" "Design2" t0iso⟩

/-- C5 counterexample: `_write_state` over a missing file is not an atomic
replace: during `Path.write_text` a reader can observe the truncated file, a
state that is neither the previous file state nor the final serialized
session. -/
theorem write_text_not_atomic_replace : ¬ atomic_replace none demo_session := by
  intro h
  rcases h (some FileContent.malformed) (List.mem_cons_self _ _) with h1 | h1
  · exact Option.noConfusion h1
  · simp at h1

/-- C5 amended: `write(s)` serializes `s` and overwrites the backing file in
full — after the write the file holds exactly the serialized session — but the
overwrite is truncate-then-write, not an atomic replace: a concurrent reader
can also observe the intermediate truncated file, and every state observable
during the write is read by `read()` as either absent or the complete session
`s`, never as some other session. -/
theorem write_state_overwrites_reader_view :
    (∀ (s : SessionState) (prev : StateFile),
       write_state s prev = some (FileContent.jsonData s.to_dict)) ∧
    (∀ s : SessionState, (write_text_steps s).getLast? =
       some (some (FileContent.jsonData s.to_dict))) ∧
    (∀ (s : SessionState) (mid : StateFile), mid ∈ write_text_steps s →
       read_state mid = none ∨ read_state mid = some s) := by
  refine ⟨fun s prev => rfl, fun s => rfl, ?_⟩
  intro s mid hm
  simp only [write_text_steps, List.mem_cons, List.not_mem_nil, or_false] at hm
  rcases hm with rfl | rfl
  · exact Or.inl rfl
  · exact Or.inr (from_dict_to_dict s)

/-- Witness for the amended C5 at a concrete input: the truncated intermediate
state of a scenario-1 write is read as absent. -/
theorem write_state_overwrites_reader_view_witness :
    read_state (some FileContent.malformed) = none ∨
    read_state (some FileContent.malformed) = some demo_session :=
  write_state_overwrites_reader_view.2.2 demo_session (some FileContent.malformed)
    (List.mem_cons_self _ _)
